import Mathlib

/-
Verification of the e-notify repository (e_notify.py, src/notify.py)
against its natural-language specification.

The development shallowly embeds the Python code: pure fragments become
Lean functions, exception-raising fragments return Except PyExn, and the
external collaborators (OS process table, file system, SMTP session,
terminal, environment) are explicit parameters, so every definition is
executable and every claim can be evaluated on concrete inputs.
-/

namespace ENotify

/-- Exceptions that the embedded Python code can raise.  Only the
constructors the program distinguishes are separated; every other
exception is carried as `otherExc` with a message. -/
inductive PyExn where
  | processLookupError (msg : String)
  | typeError (msg : String)
  | attributeError (attr : String)
  | smtpAuthenticationError
  | valueError (msg : String)
  | otherExc (msg : String)
deriving DecidableEq, Repr

/-- Exit status of the CPython interpreter for a program outcome: normal
return exits 0, an uncaught exception prints a traceback and exits 1. -/
def interpreterExitCode : Except PyExn Unit → Nat
  | Except.ok _ => 0
  | Except.error _ => 1

/-- Log levels of the logging module as used by src/notify.py. -/
inductive LogLevel where
  | debug
  | info
  | warning
  | error
deriving DecidableEq, Repr

/-- One emitted log record: level and message. -/
abbrev LogEvent := LogLevel × String

/-- Embeds Python str.split(sep) for a one-character separator: every
occurrence of the separator cuts the string, so a trailing separator
produces a trailing empty piece and the empty string yields one empty
piece. -/
def pySplitCharAux (c : Char) : List Char → List Char → List String
  | [], acc => [String.mk acc.reverse]
  | x :: xs, acc =>
      if x = c then String.mk acc.reverse :: pySplitCharAux c xs []
      else pySplitCharAux c xs (x :: acc)

/-- Python str.split with a one-character separator. -/
def pySplitChar (s : String) (c : Char) : List String :=
  pySplitCharAux c s.data []

/-- Embeds Python str.split(sep, 1) for a one-character separator: at most
one cut, at the first occurrence. -/
def pySplitOnceAux (c : Char) : List Char → List Char → List String
  | [], acc => [String.mk acc.reverse]
  | x :: xs, acc =>
      if x = c then [String.mk acc.reverse, String.mk xs]
      else pySplitOnceAux c xs (x :: acc)

/-- Python str.split(sep, 1) with a one-character separator. -/
def pySplitOnce (s : String) (c : Char) : List String :=
  pySplitOnceAux c s.data []

/-- Python sep.join(xs). -/
def pyJoin (sep : String) (xs : List String) : String :=
  String.intercalate sep xs

/-- Python os.path.basename for slash-separated paths. -/
def pyBasename (s : String) : String :=
  (pySplitChar s '/').getLastD s

/-- Closed outcome set returned by the mail-sending routine
(class ReturnValue of src/notify.py). -/
inductive ReturnValue where
  | Success
  | LoginError
  | OtherError
deriving DecidableEq, Repr

/-- Behaviour of one SMTP session as seen by send_mail: each protocol
step either succeeds or raises the recorded exception.  The steps mirror
the source order: SMTP(...) connect, first ehlo, starttls, second ehlo,
login, send_message. -/
structure Session where
  connectStep : Except PyExn Unit
  ehloOne : Except PyExn Unit
  starttlsStep : Except PyExn Unit
  ehloTwo : Except PyExn Unit
  loginStep : Except PyExn Unit
  sendStep : Except PyExn Unit
deriving Repr

/-- Result of running send_mail on a session: the value returned (or the
exception that escaped) together with how many messages were handed to
server.send_message. -/
structure SendResult where
  result : Except PyExn ReturnValue
  transmitted : Nat
deriving Repr

/-- Embeds _send_mail of src/notify.py (lines 91 to 121).  Only the
server.login call sits inside a try block: smtplib.SMTPAuthenticationError
becomes ReturnValue.LoginError, any other exception raised by login
becomes ReturnValue.OtherError.  Exceptions raised while connecting,
during either ehlo, during starttls, or while transmitting the message
are not caught and escape.  When test_login is true no message is
transmitted after a successful login. -/
def send_mail (s : Session) (test_login : Bool) : SendResult :=
  match s.connectStep with
  | Except.error e => ⟨Except.error e, 0⟩
  | Except.ok _ =>
    match s.ehloOne with
    | Except.error e => ⟨Except.error e, 0⟩
    | Except.ok _ =>
      match s.starttlsStep with
      | Except.error e => ⟨Except.error e, 0⟩
      | Except.ok _ =>
        match s.ehloTwo with
        | Except.error e => ⟨Except.error e, 0⟩
        | Except.ok _ =>
          match s.loginStep with
          | Except.error PyExn.smtpAuthenticationError =>
              ⟨Except.ok ReturnValue.LoginError, 0⟩
          | Except.error _ =>
              ⟨Except.ok ReturnValue.OtherError, 0⟩
          | Except.ok _ =>
              if test_login then ⟨Except.ok ReturnValue.Success, 0⟩
              else
                match s.sendStep with
                | Except.error e => ⟨Except.error e, 0⟩
                | Except.ok _ => ⟨Except.ok ReturnValue.Success, 1⟩

/-- Session in which every protocol step succeeds. -/
def okSession : Session :=
  ⟨Except.ok (), Except.ok (), Except.ok (), Except.ok (), Except.ok (), Except.ok ()⟩

/-- Session whose initial connection attempt raises a network error. -/
def connectFailSession : Session :=
  { okSession with connectStep := Except.error (PyExn.otherExc "ConnectionRefusedError") }

/-- Session in which login raises the authentication-rejected exception. -/
def loginRejectSession : Session :=
  { okSession with loginStep := Except.error PyExn.smtpAuthenticationError }

/-- Session in which login raises a non-authentication exception. -/
def loginBrokenSession : Session :=
  { okSession with loginStep := Except.error (PyExn.otherExc "SMTPServerDisconnected") }

/-- View of the file system as _format_mail uses it: wildcard expansion
(glob.iglob), the regular-file test (os.path.isfile), MIME guessing
(mimetypes.guess_type, returning an optional content type and an optional
encoding), and reading the bytes of a file. -/
structure FileSystem where
  globMatches : String → List String
  isfile : String → Bool
  guessType : String → Option String × Option String
  readBytes : String → List Nat

/-- Arguments of the notify subcommand as consumed by _format_mail:
optional explicit recipient list (to), the content of the optional
recipient-list file (destlist is an open file in the source, of which
only read() is used), and the optional attachment patterns. -/
structure MailArgs where
  toAddrs : Option (List String)
  destlistContent : Option String
  attachments : Option (List String)
deriving DecidableEq, Repr

/-- One MIME part added by email.add_attachment. -/
structure Attachment where
  content : List Nat
  maintype : String
  subtype : String
  filename : String
deriving DecidableEq, Repr

/-- The message assembled by _format_mail. -/
structure EmailMsg where
  subject : String
  fromAddr : String
  toRecipients : List String
  body : String
  attachments : List Attachment
deriving DecidableEq, Repr

/-- Embeds the content-type fallback of _format_mail (lines 69 to 77):
when guess_type produced no type, or produced an encoding (a compression
wrapper), the type becomes application/octet-stream.  The Boolean records
whether the fallback fired (an informational log is emitted then). -/
def resolveCType : Option String × Option String → String × Bool
  | (none, _) => ("application/octet-stream", true)
  | (some _, some _) => ("application/octet-stream", true)
  | (some c, none) => (c, false)

/-- Embeds the unpacking maintype, subtype = ctype.split("/", 1) of
line 78: a ValueError escapes unless the split yields exactly two
pieces. -/
def splitMime (ctype : String) : Except PyExn (String × String) :=
  match pySplitOnce ctype '/' with
  | [a, b] => Except.ok (a, b)
  | _ => Except.error (PyExn.valueError "not enough values to unpack")

/-- Full MIME resolution of _format_mail: fallback test followed by the
split into major and minor type. -/
def resolveMime (g : Option String × Option String) : Except PyExn (String × String) :=
  splitMime (resolveCType g).1

/-- Embeds the recipient resolution of _format_mail (lines 41 to 52):
an explicit to-list wins, else the destlist file content split on
newline, else the configured default receiver together with the
informational log about the fallback. -/
def resolveTo (args : MailArgs) (defaultReceiver : String) :
    List String × List LogEvent :=
  match args.toAddrs with
  | some tos => (tos, [])
  | none =>
    match args.destlistContent with
    | some content => (pySplitChar content '\n', [])
    | none =>
        ([defaultReceiver],
         [(LogLevel.info,
           "E-mail header To was not fed to cmd, defaulting to " ++
             defaultReceiver)])

/-- Lines of a recipient-list file in the sense of the specification
(one address per line): Python splitlines semantics, under which a
trailing newline does not produce an extra empty line.  This definition
follows the words of the spec and is only used to compare the source
behaviour against it. -/
def specFileLines (content : String) : List String :=
  if content = "" then []
  else
    let parts := pySplitChar content '\n'
    if parts.getLast? = some "" then parts.dropLast else parts

/-- Recognizes warning-level log records. -/
def isWarning : LogEvent → Bool
  | (LogLevel.warning, _) => true
  | _ => false

/-- Embeds the body of the attachment loop of _format_mail for one
expanded path: a path that is not an existing regular file is skipped
with a warning; otherwise the MIME type is resolved (with an
informational log when the fallback fired) and the file bytes are
attached under its base name. -/
def attachOne (fs : FileSystem) (f : String) :
    Except PyExn (Option Attachment × List LogEvent) :=
  if fs.isfile f then
    let g := resolveCType (fs.guessType f)
    let fallbackLogs : List LogEvent :=
      if g.2 then
        [(LogLevel.info,
          "The MIME type for the file " ++ f ++
            " could not be guessed, default to " ++ g.1)]
      else []
    match splitMime g.1 with
    | Except.error e => Except.error e
    | Except.ok (mt, st) =>
        Except.ok (some ⟨fs.readBytes f, mt, st, pyBasename f⟩,
          fallbackLogs ++
            [(LogLevel.debug,
              "Successfully attached the file " ++ f ++ " the the mail")])
  else
    Except.ok (none,
      [(LogLevel.warning,
        f ++ " does not exist or is not a file, skipping it")])

/-- Runs the attachment loop body over a list of expanded paths in
order, accumulating attachments and logs; the first escaping exception
aborts the run. -/
def attachPaths (fs : FileSystem) : List String →
    Except PyExn (List Attachment × List LogEvent)
  | [] => Except.ok ([], [])
  | f :: rest =>
    match attachOne fs f with
    | Except.error e => Except.error e
    | Except.ok (oa, logs) =>
      match attachPaths fs rest with
      | Except.error e => Except.error e
      | Except.ok (atts, logsRest) =>
          Except.ok
            ((match oa with
              | some a => a :: atts
              | none => atts),
             logs ++ logsRest)

/-- Runs the attachment loop over the patterns, each pattern first
expanded by glob. -/
def attachPatterns (fs : FileSystem) : List String →
    Except PyExn (List Attachment × List LogEvent)
  | [] => Except.ok ([], [])
  | p :: rest =>
    match attachPaths fs (fs.globMatches p) with
    | Except.error e => Except.error e
    | Except.ok (atts, logs) =>
      match attachPatterns fs rest with
      | Except.error e => Except.error e
      | Except.ok (attsRest, logsRest) =>
          Except.ok (atts ++ attsRest, logs ++ logsRest)

/-- Embeds _format_mail of src/notify.py (lines 30 to 88): build the
message with subject, sender, resolved recipients and body; when no
attachment argument was given return it immediately with zero parts;
otherwise run the attachment loop over the patterns. -/
def format_mail (fs : FileSystem) (defaultReceiver : String)
    (args : MailArgs) (sender subject body : String) :
    Except PyExn (EmailMsg × List LogEvent) :=
  let resolved := resolveTo args defaultReceiver
  let base : EmailMsg := ⟨subject, sender, resolved.1, body, []⟩
  match args.attachments with
  | none => Except.ok (base, resolved.2)
  | some patterns =>
    match attachPatterns fs patterns with
    | Except.error e => Except.error e
    | Except.ok (atts, logsA) =>
        Except.ok ({ base with attachments := atts }, resolved.2 ++ logsA)

/-- Time-indexed behaviour of the watched OS process as exposed by the
process table: its attributes at each poll instant (they may change
while the process runs, and become unreadable after it exits) and the
first poll index at which the liveness wait reports it gone. -/
structure ProcBehavior where
  pid : Int
  nameAt : Nat → String
  createTimeAt : Nat → Nat
  cmdlineAt : Nat → List String
  death : Nat

/-- Eagerly captured metadata of one process.  psutil caches the
creation time when the Process object is constructed and the name when
name() is called; _wait_process additionally stores the joined command
line.  All three reads happen at watch start, before the polling loop,
which the capture at time index zero reflects. -/
structure ProcessSnapshot where
  pid : Int
  cachedName : String
  cachedCreateTime : Nat
  cachedCmdline : String
deriving DecidableEq, Repr

/-- Embeds the snapshot lines of _wait_process (lines 125 to 133):
psutil.Process(pid) caches the creation time, proc.name() caches the
name, and the joined cmdline is stored on the object. -/
def captureSnapshot (p : ProcBehavior) : ProcessSnapshot :=
  ⟨p.pid, p.nameAt 0, p.createTimeAt 0, pyJoin " " (p.cmdlineAt 0)⟩

/-- One member of the watch-set: its start-time snapshot and its death
poll index. -/
structure WatchedProc where
  snap : ProcessSnapshot
  death : Nat
deriving DecidableEq, Repr

/-- Entering the watch on a process: the snapshot is taken now. -/
def watchStart (p : ProcBehavior) : WatchedProc :=
  ⟨captureSnapshot p, p.death⟩

/-- Processes reported gone by psutil.wait_procs at poll index k: those
whose death index is at most k. -/
def pollGone (k : Nat) (ps : List WatchedProc) : List WatchedProc :=
  ps.filter (fun p => decide (p.death ≤ k))

/-- Processes still alive after poll index k. -/
def pollAlive (k : Nat) (ps : List WatchedProc) : List WatchedProc :=
  ps.filter (fun p => ! decide (p.death ≤ k))

/-- Embeds the polling loop of _wait_process (lines 135 to 137): while
the alive set is non-empty, partition it at the current poll index,
yield the gone batch (whether or not it is empty) and continue with the
alive remainder.  The loop in the source is unbounded; here it carries
fuel, and the fuel-independence lemma below shows that any fuel beyond
the death index yields the same finite sequence. -/
def waitRunAux : List WatchedProc → Nat → Nat → List (List WatchedProc)
  | _, _, 0 => []
  | alive, k, fuel + 1 =>
    if alive.isEmpty then []
    else pollGone k alive :: waitRunAux (pollAlive k alive) (k + 1) fuel

/-- Embeds _wait_process of src/notify.py for its actual call shape: a
single watched process, polls numbered from 1, with enough fuel for the
loop to reach termination. -/
def wait_process (p : ProcBehavior) : List (List WatchedProc) :=
  waitRunAux [watchStart p] 1 (p.death + 1)

/-- Dummy file system used to instantiate theorems whose statement does
not touch the file system. -/
def emptyFS : FileSystem :=
  ⟨fun _ => [], fun _ => false, fun _ => (none, none), fun _ => []⟩

/-- Concrete file system for the attachment witness: the pattern
expands to two regular files and one directory-like match; one file has
a known text type, the other no guessable type. -/
def sampleFS : FileSystem where
  globMatches := fun p => if p = "*.log" then ["a.log", "tmp", "b.log"] else []
  isfile := fun f => f == "a.log" || f == "b.log"
  guessType := fun f => if f = "a.log" then (some "text/plain", none) else (none, none)
  readBytes := fun _ => [104, 105]

/-- Single-quote character, used by the body template of notify. -/
def sq : String := String.mk [Char.ofNat 39]

/-- Embeds the subject f-string of notify (line 185). -/
def buildSubject (pid : Int) : String :=
  "The process with pid : " ++ toString pid ++ " has ended"

/-- Embeds the body f-string of notify (lines 186 to 190): it
interpolates the cached name, the formatted cached creation time
(time.strftime over time.localtime, abstracted as fmtTime) and the
cached command line of the ended process. -/
def buildBody (fmtTime : Nat → String) (s : ProcessSnapshot) : String :=
  "\nProcess name : " ++ s.cachedName ++
    "\nCreation time : " ++ fmtTime s.cachedCreateTime ++
    " \nCommand line used to invoke it : " ++ sq ++ s.cachedCmdline ++ sq ++
    "\n                "

/-- Embeds the per-process body of the notification loop of notify
(lines 184 to 194): build subject and body from the cached attributes
of the ended process, format the mail, send it live; the returned value
of the live send is discarded by the source, while escaping exceptions
propagate. -/
def notifyOnEnd (fs : FileSystem) (d : String) (args : MailArgs)
    (sender : String) (fmtTime : Nat → String) (session : Session)
    (w : WatchedProc) : Except PyExn EmailMsg :=
  match format_mail fs d args sender (buildSubject w.snap.pid)
      (buildBody fmtTime w.snap) with
  | Except.error e => Except.error e
  | Except.ok (m, _) =>
    match (send_mail session false).result with
    | Except.error e => Except.error e
    | Except.ok _ => Except.ok m

/-- Inner loop of the child: notify every ended process of one batch in
order, collecting the built messages. -/
def notifyList (fs : FileSystem) (d : String) (args : MailArgs)
    (sender : String) (fmtTime : Nat → String) (session : Session) :
    List WatchedProc → Except PyExn (List EmailMsg)
  | [] => Except.ok []
  | w :: ws =>
    match notifyOnEnd fs d args sender fmtTime session w with
    | Except.error e => Except.error e
    | Except.ok m =>
      match notifyList fs d args sender fmtTime session ws with
      | Except.error e => Except.error e
      | Except.ok ms => Except.ok (m :: ms)

/-- Outer loop of the child: run the inner loop over every yielded
termination batch in order. -/
def notifyBatches (fs : FileSystem) (d : String) (args : MailArgs)
    (sender : String) (fmtTime : Nat → String) (session : Session) :
    List (List WatchedProc) → Except PyExn (List EmailMsg)
  | [] => Except.ok []
  | batch :: rest =>
    match notifyList fs d args sender fmtTime session batch with
    | Except.error e => Except.error e
    | Except.ok ms =>
      match notifyBatches fs d args sender fmtTime session rest with
      | Except.error e => Except.error e
      | Except.ok ms2 => Except.ok (ms ++ ms2)

/-- Embeds the detached child of notify (lines 182 to 194): drive the
watcher stream and notify for every ended process. -/
def child_run (fs : FileSystem) (d : String) (args : MailArgs)
    (sender : String) (fmtTime : Nat → String) (session : Session)
    (p : ProcBehavior) : Except PyExn (List EmailMsg) :=
  notifyBatches fs d args sender fmtTime session (wait_process p)

/-- Outcome of the authentication phase of notify: the loop broke with
a successful test login, or the process exited with status 0 on an
OtherError, or it exited with status 0 after exhausting the attempts. -/
inductive AuthOutcome where
  | success
  | exitOther
  | exitFailed
deriving DecidableEq, Repr

/-- Observable trace of the authentication phase: the passwords used in
order, the outcome, what was printed to the user, what was logged, and
how many messages were transmitted. -/
structure AuthTrace where
  passwordsUsed : List String
  outcome : AuthOutcome
  printed : List String
  logs : List LogEvent
  mailsTransmitted : Nat
deriving DecidableEq, Repr

/-- Embeds the password resolution of notify (lines 154 to 156):
os.environ.get first, else the non-echoing getpass prompt. -/
def resolvePassword (env : Option String) (prompted : String) : String :=
  match env with
  | some p => p
  | none => prompted

/-- Embeds the authentication loop of notify (lines 149 to 177).  The
statement for _ in range(3) becomes iteration over the index list; each
iteration re-resolves the password and calls _send_mail in test mode
(test_login is true).  Success breaks out successfully, OtherError
exits immediately with status 0, LoginError continues with the next
index; an exhausted index list prints the failure message, logs a
warning and exits with status 0.  Exceptions escaping _send_mail
propagate. -/
def authLoopGo (env : Option String) (prompts : Nat → String)
    (sessions : Nat → Session) :
    List Nat → List String → Nat → Except PyExn AuthTrace
  | [], used, sent =>
      Except.ok ⟨used.reverse, AuthOutcome.exitFailed,
        ["You failed your password too much times"],
        [(LogLevel.warning,
          "The username/password combination was failed too much time")],
        sent⟩
  | i :: rest, used, sent =>
      let pw := resolvePassword env (prompts i)
      match (send_mail (sessions i) true).result with
      | Except.error e => Except.error e
      | Except.ok ReturnValue.Success =>
          Except.ok ⟨(pw :: used).reverse, AuthOutcome.success, [], [],
            sent + (send_mail (sessions i) true).transmitted⟩
      | Except.ok ReturnValue.OtherError =>
          Except.ok ⟨(pw :: used).reverse, AuthOutcome.exitOther, [], [],
            sent + (send_mail (sessions i) true).transmitted⟩
      | Except.ok ReturnValue.LoginError =>
          authLoopGo env prompts sessions rest (pw :: used)
            (sent + (send_mail (sessions i) true).transmitted)

/-- The authentication loop with its source bound of three attempts. -/
def auth_loop (env : Option String) (prompts : Nat → String)
    (sessions : Nat → Session) : Except PyExn AuthTrace :=
  authLoopGo env prompts sessions [0, 1, 2] [] 0

/-- Configuration values read by notify (lines 142 to 144) together
with the default receiver consumed by _format_mail. -/
structure NotifyConf where
  server : String
  port : String
  sender : String
  receiver : String
deriving DecidableEq, Repr

/-- Embeds the top level of notify (lines 140 to 197): run the
authentication loop; on success fork, the detached child drives the
watcher and notifies (child_run); on an OtherError or on exhaustion the
process exits before the fork, so no watching happens and no mail is
sent.  The result pairs the authentication trace with the messages of
the child run when the fork happened. -/
def notify_fun (conf : NotifyConf) (env : Option String)
    (prompts : Nat → String) (sessions : Nat → Session) (fs : FileSystem)
    (args : MailArgs) (fmtTime : Nat → String) (childSession : Session)
    (p : ProcBehavior) : Except PyExn (AuthTrace × Option (List EmailMsg)) :=
  match auth_loop env prompts sessions with
  | Except.error e => Except.error e
  | Except.ok t =>
    match t.outcome with
    | AuthOutcome.success =>
      match child_run fs conf.receiver args conf.sender fmtTime
          childSession p with
      | Except.error e => Except.error e
      | Except.ok ms => Except.ok (t, some ms)
    | AuthOutcome.exitOther => Except.ok (t, none)
    | AuthOutcome.exitFailed => Except.ok (t, none)

/-- Concrete watched process that terminates two polling intervals
after watch start. -/
def procTwo : ProcBehavior :=
  ⟨1234, fun _ => "sleep", fun _ => 1700000000, fun _ => ["sleep", "2"], 2⟩

/-- Concrete message produced by the child on the sample process. -/
def msgW : EmailMsg :=
  ⟨buildSubject procTwo.pid, "s@x", ["d@z"],
    buildBody (fun _ => "T") (captureSnapshot procTwo), []⟩

/-- Concrete prompt source for the authentication witness. -/
def promptsW : Nat → String := fun i => "pw" ++ toString i

/-- Concrete sessions for the authentication witness: the first two
attempts are rejected logins, the third succeeds. -/
def sessionsW : Nat → Session :=
  fun i => if i < 2 then loginRejectSession else okSession

/-- Attempt outcomes matching sessionsW. -/
def resultsW : Nat → ReturnValue :=
  fun i => if i < 2 then ReturnValue.LoginError else ReturnValue.Success

/-- Concrete configuration for witnesses. -/
def confW : NotifyConf := ⟨"smtp.example.org", "587", "s@x", "d@z"⟩

/-- Values a name can be bound to in the dispatcher, as far as calling
is concerned.  The import statement of e_notify.py (line 5) binds the
name notify to the module object src.notify, not to its function. -/
inductive PyCallable where
  | moduleObj (name : String)
  | funcObj
deriving DecidableEq, Repr

/-- The binding of the name notify inside e_notify.py. -/
def notifyBinding : PyCallable := PyCallable.moduleObj "src.notify"

/-- Calling a Python value: calling a module object raises TypeError. -/
def callValue : PyCallable → Except PyExn Unit
  | PyCallable.moduleObj _ =>
      Except.error (PyExn.typeError "module object is not callable")
  | PyCallable.funcObj => Except.ok ()

/-- Effects the notify subcommand performed before it ended:
authentication attempts made, mails sent, whether watching began, and
whether set_conf was ever called by the dispatcher. -/
structure DispatchTrace where
  authAttempts : Nat
  mailsSent : Nat
  watchStarted : Bool
  setConfCalled : Bool
deriving DecidableEq, Repr

/-- Embeds the liveness probe os.kill(pid, 0) of notify_target:
ProcessLookupError when the pid names no live process. -/
def os_kill_check (alive : Int → Bool) (pid : Int) : Except PyExn Unit :=
  if alive pid then Except.ok ()
  else Except.error (PyExn.processLookupError "No such process")

/-- Embeds notify_target of e_notify.py (lines 26 to 34): probe the pid
with os.kill; when the probe raises ProcessLookupError, re-raise a new
ProcessLookupError naming the pid, which the module leaves uncaught;
when the pid is alive, call the value bound to the name notify, which
is the imported module object.  The dispatcher never calls set_conf.
The trace records that neither path authenticates, watches or sends. -/
def notify_target (alive : Int → Bool) (pid : Int) :
    Except PyExn Unit × DispatchTrace :=
  match os_kill_check alive pid with
  | Except.error _ =>
      (Except.error (PyExn.processLookupError
          ("The Process with PID : " ++ toString pid ++ " does not exist")),
       ⟨0, 0, false, false⟩)
  | Except.ok _ => (callValue notifyBinding, ⟨0, 0, false, false⟩)

/-- Configuration store: ordered sections, each an ordered list of
key-value pairs (the configparser object of e_notify.py). -/
abbrev Config := List (String × List (String × String))

/-- Namespace produced by argparse: the attributes present, each
holding an optional string (none models the Python value None for a
flag that was not supplied). -/
structure PyNamespace where
  attrs : List (String × Option String)
deriving DecidableEq, Repr

/-- getattr on a namespace: AttributeError when the attribute is
absent. -/
def getattrNs (ns : PyNamespace) (k : String) : Except PyExn (Option String) :=
  match ns.attrs.lookup k with
  | some v => Except.ok v
  | none => Except.error (PyExn.attributeError k)

/-- The (section, key) pairs of the store in the iteration order of
config_target. -/
def confPairs (conf : Config) : List (String × String) :=
  (conf.map (fun s => s.2.map (fun kv => (s.1, kv.1)))).flatten

/-- Overwriting one key of one section of the store. -/
def setPair (conf : Config) (sec key v : String) : Config :=
  conf.map (fun s =>
    if s.1 = sec then
      (s.1, s.2.map (fun kv => if kv.1 = key then (kv.1, v) else kv))
    else s)

/-- Embeds the loop of config_target (lines 14 to 20): for every
section key whose namespace attribute is not None, overwrite the store
value and then evaluate args.logger.debug.  The namespace argparse
builds for the config subcommand has no attribute named logger, so
that access raises AttributeError; and even a present attribute would
hold a string or None, neither of which has a debug attribute. -/
def configLoop (ns : PyNamespace) :
    List (String × String) → Config → Except PyExn Config
  | [], c => Except.ok c
  | (sec, key) :: rest, c =>
    match getattrNs ns key with
    | Except.error e => Except.error e
    | Except.ok none => configLoop ns rest c
    | Except.ok (some v) =>
      let _cNew := setPair c sec key v
      match getattrNs ns "logger" with
      | Except.error e => Except.error e
      | Except.ok _ => Except.error (PyExn.attributeError "debug")

/-- Embeds config_target of e_notify.py (lines 12 to 23): run the loop
over every section key of the loaded store, then persist the resulting
store to conf.ini; an escaping exception aborts before anything is
written, so the ok value is exactly what gets persisted. -/
def config_target (conf : Config) (ns : PyNamespace) : Except PyExn Config :=
  configLoop ns (confPairs conf) conf

/-- Store matching the configuration layout the program reads. -/
def sampleConf : Config :=
  [("SMTP.servers", [("server", "old.example.org")]),
   ("SMTP.port", [("port", "587")]),
   ("SMTP.login", [("sender", "me@example.org")]),
   ("defaults", [("receiver", "you@example.org")])]

/-- Namespace argparse builds for the config subcommand invoked with
the server flag supplied: every config key is an attribute, only
server is non-None, and there is no attribute named logger. -/
def sampleEditNs : PyNamespace :=
  ⟨[("server", some "new.example.org"), ("port", none),
    ("sender", none), ("receiver", none)]⟩

/-- The same namespace with no flag supplied. -/
def sampleNoEditNs : PyNamespace :=
  ⟨[("server", none), ("port", none), ("sender", none), ("receiver", none)]⟩

theorem send_mail_test_transmits_nothing (s : Session) :
    (send_mail s true).transmitted = 0 := by
  unfold send_mail
  cases s.connectStep <;> cases s.ehloOne <;> cases s.starttlsStep <;>
    cases s.ehloTwo <;> simp
  cases hl : s.loginStep with
  | error e => cases e <;> simp
  | ok _ => simp

/-- Claim C6, counterexample.  The claim states that the
authenticate-and-send operation always returns a value from the closed
set and never lets an exception escape, with any non-login failure
during the session mapped to OtherError.  On a session whose initial
connection attempt raises ConnectionRefusedError, send_mail propagates
the exception instead of returning any ReturnValue. -/
theorem send_mail_closed_set_counterexample :
    (send_mail connectFailSession false).result =
      Except.error (PyExn.otherExc "ConnectionRefusedError") ∧
    ¬ ∃ rv : ReturnValue,
        (send_mail connectFailSession false).result = Except.ok rv := by
  refine ⟨rfl, ?_⟩
  rintro ⟨rv, h⟩
  simp [send_mail, connectFailSession, okSession] at h

/-- Claim C6, amended.  Whenever every protocol step before login
succeeds, send_mail returns a value from the closed set:
authentication-rejected login yields LoginError, a login failing with
any other exception yields OtherError, and a successful login yields
Success (in test mode immediately, in live mode once the transmission
step succeeds).  Exceptions raised outside the login call, such as a
failing transmission in live mode, escape uncaught. -/
theorem send_mail_amended (s : Session) (t : Bool)
    (hc : s.connectStep = Except.ok ())
    (h1 : s.ehloOne = Except.ok ())
    (hs : s.starttlsStep = Except.ok ())
    (h2 : s.ehloTwo = Except.ok ()) :
    (s.loginStep = Except.error PyExn.smtpAuthenticationError →
        (send_mail s t).result = Except.ok ReturnValue.LoginError) ∧
    (∀ e, s.loginStep = Except.error e → e ≠ PyExn.smtpAuthenticationError →
        (send_mail s t).result = Except.ok ReturnValue.OtherError) ∧
    (s.loginStep = Except.ok () → t = true →
        (send_mail s t).result = Except.ok ReturnValue.Success) ∧
    (s.loginStep = Except.ok () → t = false → s.sendStep = Except.ok () →
        (send_mail s t).result = Except.ok ReturnValue.Success) ∧
    (s.loginStep = Except.ok () → t = false →
        ∀ e, s.sendStep = Except.error e →
          (send_mail s t).result = Except.error e) := by
  refine ⟨?_, ?_, ?_, ?_, ?_⟩
  · intro hl
    simp [send_mail, hc, h1, hs, h2, hl]
  · intro e hl he
    cases e <;> simp [send_mail, hc, h1, hs, h2, hl]
    exact absurd rfl he
  · intro hl ht
    simp [send_mail, hc, h1, hs, h2, hl, ht]
  · intro hl ht hsend
    simp [send_mail, hc, h1, hs, h2, hl, ht, hsend]
  · intro hl ht e hsend
    simp [send_mail, hc, h1, hs, h2, hl, ht, hsend]

theorem waitRunAux_single (w : WatchedProc) :
    ∀ n k, w.death ≤ k + n →
      waitRunAux [w] k (n + 1) = List.replicate (w.death - k) [] ++ [[w]] := by
  intro n
  induction n with
  | zero =>
    intro k hk
    simp only [Nat.add_zero] at hk
    have hz : w.death - k = 0 := Nat.sub_eq_zero_of_le hk
    simp [waitRunAux, pollGone, pollAlive, hk, hz, List.filter]
  | succ m ih =>
    intro k hk
    by_cases hd : w.death ≤ k
    · have hz : w.death - k = 0 := Nat.sub_eq_zero_of_le hd
      simp [waitRunAux, pollGone, pollAlive, hd, hz, List.filter]
    · have hlt : k < w.death := Nat.lt_of_not_le hd
      have hstep : waitRunAux [w] k (m + 1 + 1) =
          [] :: waitRunAux [w] (k + 1) (m + 1) := by
        simp [waitRunAux, pollGone, pollAlive, hd, List.filter]
      rw [hstep, ih (k + 1) (by omega)]
      have hsub : w.death - k = (w.death - (k + 1)) + 1 := by omega
      rw [hsub, List.replicate_succ]
      simp

theorem isWarning_info (s : String) : isWarning (LogLevel.info, s) = false := rfl

theorem isWarning_debug (s : String) : isWarning (LogLevel.debug, s) = false := rfl

theorem isWarning_warn (s : String) : isWarning (LogLevel.warning, s) = true := rfl

theorem resolveTo_no_warning (args : MailArgs) (d : String) :
    ((resolveTo args d).2).countP isWarning = 0 := by
  rcases args with ⟨t, dl, a⟩
  rcases t with _ | t <;> rcases dl with _ | dl <;>
    simp [resolveTo, List.countP_cons, List.countP_nil, isWarning_info]

theorem attachOne_isfile (fs : FileSystem) (f : String)
    (hf : fs.isfile f = true) (mt st : String)
    (hsplit : pySplitOnce (resolveCType (fs.guessType f)).1 '/' = [mt, st]) :
    ∃ logs, attachOne fs f =
        Except.ok (some ⟨fs.readBytes f, mt, st, pyBasename f⟩, logs) ∧
      logs.countP isWarning = 0 := by
  unfold attachOne
  rw [hf]
  simp only [splitMime, hsplit]
  by_cases hg : (resolveCType (fs.guessType f)).2 = true <;>
    simp [hg, List.countP_cons, List.countP_nil, List.countP_append,
      isWarning_info, isWarning_debug]
  rintro a b (⟨ha, hb⟩ | ⟨ha, hb⟩) <;> subst ha <;> rfl

theorem attachOne_not_isfile (fs : FileSystem) (f : String)
    (hf : fs.isfile f = false) :
    ∃ logs, attachOne fs f = Except.ok (none, logs) ∧
      logs.countP isWarning = 1 := by
  unfold attachOne
  rw [hf]
  simp [List.countP_cons, List.countP_nil, isWarning_warn]

theorem attachPaths_ok (fs : FileSystem) (paths : List String)
    (h : ∀ f ∈ paths, fs.isfile f = true →
        ∃ mt st, pySplitOnce (resolveCType (fs.guessType f)).1 '/' = [mt, st]) :
    ∃ atts logs, attachPaths fs paths = Except.ok (atts, logs) ∧
      atts.length = paths.countP (fun f => fs.isfile f) ∧
      logs.countP isWarning = paths.countP (fun f => ! fs.isfile f) := by
  induction paths with
  | nil => exact ⟨[], [], rfl, rfl, rfl⟩
  | cons f rest ih =>
    obtain ⟨atts, logs, hrec, hlen, hwarn⟩ :=
      ih (fun g hg hgf => h g (List.mem_cons_of_mem f hg) hgf)
    by_cases hf : fs.isfile f = true
    · obtain ⟨mt, st, hsplit⟩ := h f (List.mem_cons_self f rest) hf
      obtain ⟨l1, hone, hw1⟩ := attachOne_isfile fs f hf mt st hsplit
      refine ⟨⟨fs.readBytes f, mt, st, pyBasename f⟩ :: atts, l1 ++ logs, ?_, ?_, ?_⟩
      · simp [attachPaths, hone, hrec]
      · simp [List.countP_cons, hf, hlen, Nat.add_comm]
      · simp [List.countP_append, List.countP_cons, hf, hw1, hwarn]
    · rw [Bool.not_eq_true] at hf
      obtain ⟨l1, hone, hw1⟩ := attachOne_not_isfile fs f hf
      refine ⟨atts, l1 ++ logs, ?_, ?_, ?_⟩
      · simp [attachPaths, hone, hrec]
      · simp [List.countP_cons, hf, hlen]
      · simp [List.countP_append, List.countP_cons, hf, hw1, hwarn, Nat.add_comm]

/-- Claim C10.  MIME resolution: whenever guess_type yields no content
type, or yields an encoding (a compression wrapper), the resolved pair is
exactly application, octet-stream, and no exception is raised there. -/
theorem mime_fallback_spec (g : Option String × Option String)
    (h : g.1 = none ∨ g.2 ≠ none) :
    resolveMime g = Except.ok ("application", "octet-stream") := by
  rcases g with ⟨c, e⟩
  rcases h with h | h
  · simp only at h
    subst h
    rfl
  · simp only at h
    rcases e with _ | x
    · exact absurd rfl h
    · rcases c with _ | y <;> rfl

/-- Claim C10, witness: a name with no known extension and a compressed
tar archive both resolve to the generic binary type. -/
theorem mime_fallback_spec_witness :
    resolveMime (none, none) = Except.ok ("application", "octet-stream") ∧
    resolveMime (some "application/x-tar", some "gzip") =
      Except.ok ("application", "octet-stream") :=
  ⟨mime_fallback_spec (none, none) (Or.inl rfl),
   mime_fallback_spec (some "application/x-tar", some "gzip")
     (Or.inr (fun h => Option.noConfusion h))⟩

/-- Claim C7, counterexample.  The claim states that with a
recipient-list file the recipients are exactly the lines of the file.
On a file whose content ends with a newline, the source splits the raw
content on the newline character, which appends an extra empty
recipient; the result differs from the lines of the file. -/
theorem recipients_destlist_counterexample :
    (resolveTo ⟨none, some "alice@example.org\nbob@example.org\n", none⟩
        "fallback@example.org").1 =
      ["alice@example.org", "bob@example.org", ""] ∧
    specFileLines "alice@example.org\nbob@example.org\n" =
      ["alice@example.org", "bob@example.org"] ∧
    (resolveTo ⟨none, some "alice@example.org\nbob@example.org\n", none⟩
        "fallback@example.org").1 ≠
      specFileLines "alice@example.org\nbob@example.org\n" := by
  refine ⟨rfl, rfl, ?_⟩
  intro h
  have h1 : (resolveTo ⟨none, some "alice@example.org\nbob@example.org\n", none⟩
      "fallback@example.org").1 =
      ["alice@example.org", "bob@example.org", ""] := rfl
  have h2 : specFileLines "alice@example.org\nbob@example.org\n" =
      ["alice@example.org", "bob@example.org"] := rfl
  rw [h1, h2] at h
  injection h with hhead h
  injection h with hhead h
  exact List.noConfusion h

/-- Claim C7, amended.  Recipient resolution follows the claimed order:
an explicit recipient list is taken verbatim and in order; otherwise the
recipients are the destlist file content split on the newline character
(which equals the lines of the file except that a trailing newline
contributes one extra empty recipient); otherwise the single configured
default receiver is used and an informational note about the fallback is
logged.  With no attachment patterns the built message carries exactly
the resolved recipients. -/
theorem recipients_resolution_amended (fs : FileSystem) (args : MailArgs)
    (d sender subject body : String) :
    (∀ tos, args.toAddrs = some tos → resolveTo args d = (tos, [])) ∧
    (args.toAddrs = none → ∀ c, args.destlistContent = some c →
        resolveTo args d = (pySplitChar c '\n', [])) ∧
    (args.toAddrs = none → args.destlistContent = none →
        resolveTo args d =
          ([d], [(LogLevel.info,
            "E-mail header To was not fed to cmd, defaulting to " ++ d)])) ∧
    (args.attachments = none →
        format_mail fs d args sender subject body =
          Except.ok (⟨subject, sender, (resolveTo args d).1, body, []⟩,
            (resolveTo args d).2)) := by
  refine ⟨?_, ?_, ?_, ?_⟩
  · intro tos h
    simp [resolveTo, h]
  · intro h c hc
    simp [resolveTo, h, hc]
  · intro h hc
    simp [resolveTo, h, hc]
  · intro h
    simp [format_mail, h]

/-- Claim C7, witness for the amended theorem at the three concrete
argument shapes. -/
theorem recipients_resolution_amended_witness :
    resolveTo ⟨some ["a@x", "b@y"], none, none⟩ "d@z" = (["a@x", "b@y"], []) ∧
    resolveTo ⟨none, some "a@x\nb@y", none⟩ "d@z" =
      (pySplitChar "a@x\nb@y" '\n', []) ∧
    resolveTo ⟨none, none, none⟩ "d@z" =
      (["d@z"], [(LogLevel.info,
        "E-mail header To was not fed to cmd, defaulting to " ++ "d@z")]) :=
  ⟨(recipients_resolution_amended emptyFS ⟨some ["a@x", "b@y"], none, none⟩
      "d@z" "s@x" "subj" "body").1 ["a@x", "b@y"] rfl,
   (recipients_resolution_amended emptyFS ⟨none, some "a@x\nb@y", none⟩
      "d@z" "s@x" "subj" "body").2.1 rfl "a@x\nb@y" rfl,
   (recipients_resolution_amended emptyFS ⟨none, none, none⟩
      "d@z" "s@x" "subj" "body").2.2.1 rfl rfl⟩

/-- Claim C8.  When no attachment argument is given the message is
returned immediately with zero parts; and for a single pattern whose
expansion contains both existing regular files and other matches, the
built message holds exactly one part per existing regular file while
every other match contributes exactly one logged warning and never
aborts the build. -/
theorem attachments_spec (fs : FileSystem) (args : MailArgs)
    (d sender subject body : String) :
    (args.attachments = none →
        ∃ logs, format_mail fs d args sender subject body =
          Except.ok (⟨subject, sender, (resolveTo args d).1, body, []⟩, logs)) ∧
    (∀ p, args.attachments = some [p] →
      (∀ f ∈ fs.globMatches p, fs.isfile f = true →
          ∃ mt st, pySplitOnce (resolveCType (fs.guessType f)).1 '/' = [mt, st]) →
      ∃ m logs, format_mail fs d args sender subject body = Except.ok (m, logs) ∧
        m.attachments.length = (fs.globMatches p).countP (fun f => fs.isfile f) ∧
        logs.countP isWarning =
          (fs.globMatches p).countP (fun f => ! fs.isfile f)) := by
  constructor
  · intro h
    exact ⟨(resolveTo args d).2, by simp [format_mail, h]⟩
  · intro p hp hmime
    obtain ⟨atts, logsA, hpaths, hlen, hwarn⟩ := attachPaths_ok fs (fs.globMatches p) hmime
    refine ⟨⟨subject, sender, (resolveTo args d).1, body, atts⟩,
        (resolveTo args d).2 ++ (logsA ++ []), ?_, ?_, ?_⟩
    · simp [format_mail, hp, attachPatterns, hpaths]
    · exact hlen
    · simp [List.countP_append, resolveTo_no_warning, hwarn, List.countP_nil]

/-- Claim C8, witness: with the sample file system the built message has
exactly two parts and exactly one warning was logged. -/
theorem attachments_spec_witness :
    ∃ m logs,
      format_mail sampleFS "d@z" ⟨none, none, some ["*.log"]⟩ "s@x" "subj" "body" =
        Except.ok (m, logs) ∧
      m.attachments.length = 2 ∧ logs.countP isWarning = 1 := by
  obtain ⟨m, logs, hm, hlen, hw⟩ :=
    (attachments_spec sampleFS ⟨none, none, some ["*.log"]⟩
        "d@z" "s@x" "subj" "body").2 "*.log" rfl
      (by
        intro f hf hif
        fin_cases hf
        · exact ⟨"text", "plain", rfl⟩
        · exact absurd hif (by decide)
        · exact ⟨"application", "octet-stream", rfl⟩)
  refine ⟨m, logs, hm, ?_, ?_⟩
  · rw [hlen]
    decide
  · rw [hw]
    decide

theorem countP_replicate_empty (n : Nat) :
    (List.replicate n ([] : List WatchedProc)).countP (fun b => ! b.isEmpty) = 0 := by
  induction n with
  | zero => rfl
  | succ m ih => simp [List.replicate_succ, List.countP_cons, ih]

/-- Claim C5, counterexample.  The claim states that the produced
sequence contains only non-empty termination batches and that a single
process exiting two polling intervals after start yields exactly one
batch.  The watcher yields the gone partition of every poll
unconditionally, so that process produces the sequence with an empty
first batch and two batches in total. -/
theorem wait_process_empty_batch_counterexample :
    wait_process procTwo = [[], [watchStart procTwo]] ∧
    [] ∈ wait_process procTwo ∧
    (wait_process procTwo).length = 2 := by
  refine ⟨rfl, ?_, rfl⟩
  rw [show wait_process procTwo = [[], [watchStart procTwo]] from rfl]
  exact List.mem_cons_self _ _

/-- Claim C5, amended.  Watching a single process that dies at poll
index d produces the finite sequence of d batches: one possibly-empty
batch per poll, of which exactly one (the last) is non-empty and
contains the watched process; the sequence is independent of any extra
fuel (the loop self-terminates), and it ends exactly when the alive set
becomes empty: the alive set still holds the process at every poll
before its death index and is empty from the death index on. -/
theorem wait_process_amended (p : ProcBehavior) :
    wait_process p = List.replicate (p.death - 1) [] ++ [[watchStart p]] ∧
    (∀ extra, waitRunAux [watchStart p] 1 (p.death + 1 + extra) = wait_process p) ∧
    (wait_process p).countP (fun b => ! b.isEmpty) = 1 ∧
    wait_process p ≠ [] ∧
    (∀ k, k < p.death → pollAlive k [watchStart p] = [watchStart p]) ∧
    (∀ k, p.death ≤ k → pollAlive k [watchStart p] = []) := by
  have hdeath : (watchStart p).death = p.death := rfl
  have hmain : wait_process p =
      List.replicate (p.death - 1) [] ++ [[watchStart p]] := by
    have := waitRunAux_single (watchStart p) p.death 1 (by rw [hdeath]; omega)
    rw [hdeath] at this
    exact this
  refine ⟨hmain, ?_, ?_, ?_, ?_, ?_⟩
  · intro extra
    have := waitRunAux_single (watchStart p) (p.death + extra) 1
      (by rw [hdeath]; omega)
    rw [hdeath] at this
    rw [show p.death + 1 + extra = p.death + extra + 1 by omega, this, hmain]
  · rw [hmain]
    simp [List.countP_append, countP_replicate_empty, List.countP_cons]
  · rw [hmain]
    intro habs
    have := congrArg List.length habs
    simp at this
  · intro k hk
    have hnle : ¬ ((watchStart p).death ≤ k) := by rw [hdeath]; omega
    simp [pollAlive, List.filter, hnle]
  · intro k hk
    have hle : (watchStart p).death ≤ k := by rw [hdeath]; omega
    simp [pollAlive, List.filter, hle]

/-- Claim C5, witness for the amended theorem at the process dying two
polls after start. -/
theorem wait_process_amended_witness :
    wait_process procTwo =
      List.replicate (procTwo.death - 1) [] ++ [[watchStart procTwo]] ∧
    (wait_process procTwo).countP (fun b => ! b.isEmpty) = 1 ∧
    pollAlive 1 [watchStart procTwo] = [watchStart procTwo] ∧
    pollAlive 2 [watchStart procTwo] = [] :=
  ⟨(wait_process_amended procTwo).1,
   (wait_process_amended procTwo).2.2.1,
   (wait_process_amended procTwo).2.2.2.2.1 1 (by decide),
   (wait_process_amended procTwo).2.2.2.2.2 2 (by decide)⟩

theorem format_mail_fields (fs : FileSystem) (d : String) (args : MailArgs)
    (sender subject body : String) (m : EmailMsg) (logs : List LogEvent)
    (h : format_mail fs d args sender subject body = Except.ok (m, logs)) :
    m.subject = subject ∧ m.fromAddr = sender ∧ m.body = body := by
  rcases hA : args.attachments with _ | pats
  · simp only [format_mail, hA] at h
    simp only [Except.ok.injEq, Prod.mk.injEq] at h
    rw [← h.1]
    exact ⟨rfl, rfl, rfl⟩
  · simp only [format_mail, hA] at h
    rcases hP : attachPatterns fs pats with e | pr <;> rw [hP] at h
    · cases h
    · rcases pr with ⟨atts, logsA⟩
      simp only [Except.ok.injEq, Prod.mk.injEq] at h
      rw [← h.1]
      exact ⟨rfl, rfl, rfl⟩

theorem notifyBatches_replicate_nil (fs : FileSystem) (d : String)
    (args : MailArgs) (sender : String) (fmtTime : Nat → String)
    (session : Session) (n : Nat) (rest : List (List WatchedProc)) :
    notifyBatches fs d args sender fmtTime session
        (List.replicate n [] ++ rest) =
      notifyBatches fs d args sender fmtTime session rest := by
  induction n with
  | zero => rfl
  | succ m ih =>
    rw [List.replicate_succ, List.cons_append]
    show (match notifyList fs d args sender fmtTime session [] with
      | Except.error e => Except.error e
      | Except.ok ms =>
        match notifyBatches fs d args sender fmtTime session
            (List.replicate m [] ++ rest) with
        | Except.error e => Except.error e
        | Except.ok ms2 => Except.ok (ms ++ ms2)) = _
    rw [ih]
    rcases notifyBatches fs d args sender fmtTime session rest with e | ms
    · rfl
    · simp [notifyList]

/-- Claim C4.  Whenever the detached child completes, it produced
exactly one notification whose subject names the watched pid and whose
body is built from the snapshot captured at watch start (time index
zero); and the whole child run is unchanged under any variation of the
process attributes after time zero, since only the start values and the
death index enter it. -/
theorem snapshot_capture_spec (fs : FileSystem) (d : String) (args : MailArgs)
    (sender : String) (fmtTime : Nat → String) (session : Session)
    (p : ProcBehavior) (ms : List EmailMsg)
    (h : child_run fs d args sender fmtTime session p = Except.ok ms) :
    ms.length = 1 ∧
    (∀ m ∈ ms, m.subject = buildSubject p.pid ∧
      m.body = buildBody fmtTime (captureSnapshot p)) ∧
    (∀ q : ProcBehavior, q.pid = p.pid → q.nameAt 0 = p.nameAt 0 →
      q.createTimeAt 0 = p.createTimeAt 0 → q.cmdlineAt 0 = p.cmdlineAt 0 →
      q.death = p.death →
      child_run fs d args sender fmtTime session q =
        child_run fs d args sender fmtTime session p) := by
  have hwp : wait_process p =
      List.replicate (p.death - 1) [] ++ [[watchStart p]] := by
    have := waitRunAux_single (watchStart p) p.death 1
      (by rw [show (watchStart p).death = p.death from rfl]; omega)
    exact this
  rw [child_run, hwp, notifyBatches_replicate_nil] at h
  rcases hN : notifyOnEnd fs d args sender fmtTime session (watchStart p)
    with e | m
  · simp [notifyBatches, notifyList, hN] at h
  · simp only [notifyBatches, notifyList, hN] at h
    simp only [Except.ok.injEq] at h
    subst h
    have hfields : m.subject = buildSubject p.pid ∧
        m.body = buildBody fmtTime (captureSnapshot p) := by
      rcases hF : format_mail fs d args sender
          (buildSubject (watchStart p).snap.pid)
          (buildBody fmtTime (watchStart p).snap) with e | pr
      · rw [notifyOnEnd, hF] at hN
        cases hN
      · rcases pr with ⟨m0, logs⟩
        rw [notifyOnEnd, hF] at hN
        rcases hS : (send_mail session false).result with e | rv <;>
          rw [hS] at hN
        · cases hN
        · simp only [Except.ok.injEq] at hN
          subst hN
          obtain ⟨h1, _, h3⟩ :=
            format_mail_fields fs d args sender _ _ m0 logs hF
          exact ⟨h1, h3⟩
    refine ⟨rfl, ?_, ?_⟩
    · intro m2 hm2
      simp only [List.append_nil, List.mem_singleton] at hm2
      subst hm2
      exact hfields
    · intro q h1 h2 h3 h4 h5
      have hws : watchStart q = watchStart p := by
        simp [watchStart, captureSnapshot, h1, h2, h3, h4, h5]
      rw [child_run, child_run, wait_process, wait_process, hws, h5]

/-- Claim C4, witness: a full concrete child run building exactly one
message from the start snapshot. -/
theorem snapshot_capture_spec_witness :
    child_run emptyFS "d@z" ⟨none, none, none⟩ "s@x" (fun _ => "T")
        okSession procTwo = Except.ok [msgW] ∧
    [msgW].length = 1 ∧
    (∀ m ∈ [msgW], m.subject = buildSubject procTwo.pid ∧
      m.body = buildBody (fun _ => "T") (captureSnapshot procTwo)) := by
  have h : child_run emptyFS "d@z" ⟨none, none, none⟩ "s@x" (fun _ => "T")
      okSession procTwo = Except.ok [msgW] := rfl
  exact ⟨h,
    (snapshot_capture_spec emptyFS "d@z" ⟨none, none, none⟩ "s@x"
      (fun _ => "T") okSession procTwo [msgW] h).1,
    (snapshot_capture_spec emptyFS "d@z" ⟨none, none, none⟩ "s@x"
      (fun _ => "T") okSession procTwo [msgW] h).2.1⟩

/-- Claim C3.  Authentication is attempted at most three times; the
password used at every attempt is re-resolved as environment variable
first, else the prompt of that attempt; every attempt runs in test-only
mode so the phase transmits no mail; an OtherError on the first attempt
terminates immediately after exactly one attempt; LoginError outcomes
retry up to the bound, so two LoginError outcomes followed by Success
succeed after exactly three attempts; and three LoginError outcomes
exhaust the loop, print the failure to the user, log a warning, and the
program exits without forking, so no mail is ever sent. -/
theorem auth_loop_spec (conf : NotifyConf) (env : Option String)
    (prompts : Nat → String) (sessions : Nat → Session)
    (results : Nat → ReturnValue) (fs : FileSystem) (args : MailArgs)
    (fmtTime : Nat → String) (childSession : Session) (p : ProcBehavior)
    (h : ∀ i, i < 3 →
      (send_mail (sessions i) true).result = Except.ok (results i)) :
    ∃ t, auth_loop env prompts sessions = Except.ok t ∧
      t.passwordsUsed.length ≤ 3 ∧
      t.passwordsUsed = (List.range t.passwordsUsed.length).map
        (fun i => resolvePassword env (prompts i)) ∧
      t.mailsTransmitted = 0 ∧
      (results 0 = ReturnValue.OtherError →
        t.outcome = AuthOutcome.exitOther ∧ t.passwordsUsed.length = 1) ∧
      (results 0 = ReturnValue.LoginError → results 1 = ReturnValue.LoginError →
        results 2 = ReturnValue.Success →
        t.outcome = AuthOutcome.success ∧ t.passwordsUsed.length = 3) ∧
      ((∀ i, i < 3 → results i = ReturnValue.LoginError) →
        t.outcome = AuthOutcome.exitFailed ∧
        t.printed = ["You failed your password too much times"] ∧
        t.logs = [(LogLevel.warning,
          "The username/password combination was failed too much time")] ∧
        notify_fun conf env prompts sessions fs args fmtTime childSession p =
          Except.ok (t, none)) := by
  have h0 := h 0 (by omega)
  have h1 := h 1 (by omega)
  have h2 := h 2 (by omega)
  have ht0 := send_mail_test_transmits_nothing (sessions 0)
  have ht1 := send_mail_test_transmits_nothing (sessions 1)
  have ht2 := send_mail_test_transmits_nothing (sessions 2)
  cases hr0 : results 0 with
  | Success =>
    rw [hr0] at h0
    have hauth : auth_loop env prompts sessions = Except.ok
        ⟨[resolvePassword env (prompts 0)], AuthOutcome.success, [], [], 0⟩ := by
      simp [auth_loop, authLoopGo, h0, ht0]
    refine ⟨_, hauth, ?_, ?_, ?_, ?_, ?_, ?_⟩
    · simp
    · rfl
    · rfl
    · intro hx
      exact ReturnValue.noConfusion hx
    · intro hA hB hC
      exact ReturnValue.noConfusion hA
    · intro hall
      have := hall 0 (by omega)
      rw [hr0] at this
      exact ReturnValue.noConfusion this
  | OtherError =>
    rw [hr0] at h0
    have hauth : auth_loop env prompts sessions = Except.ok
        ⟨[resolvePassword env (prompts 0)], AuthOutcome.exitOther, [], [], 0⟩ := by
      simp [auth_loop, authLoopGo, h0, ht0]
    refine ⟨_, hauth, ?_, ?_, ?_, ?_, ?_, ?_⟩
    · simp
    · rfl
    · rfl
    · intro hx
      exact ⟨rfl, rfl⟩
    · intro hA hB hC
      exact ReturnValue.noConfusion hA
    · intro hall
      have := hall 0 (by omega)
      rw [hr0] at this
      exact ReturnValue.noConfusion this
  | LoginError =>
    rw [hr0] at h0
    cases hr1 : results 1 with
    | Success =>
      rw [hr1] at h1
      have hauth : auth_loop env prompts sessions = Except.ok
          ⟨[resolvePassword env (prompts 0), resolvePassword env (prompts 1)],
            AuthOutcome.success, [], [], 0⟩ := by
        simp [auth_loop, authLoopGo, h0, h1, ht0, ht1]
      refine ⟨_, hauth, ?_, ?_, ?_, ?_, ?_, ?_⟩
      · simp
      · rfl
      · rfl
      · intro hx
        exact ReturnValue.noConfusion hx
      · intro hA hB hC
        exact ReturnValue.noConfusion hB
      · intro hall
        have := hall 1 (by omega)
        rw [hr1] at this
        exact ReturnValue.noConfusion this
    | OtherError =>
      rw [hr1] at h1
      have hauth : auth_loop env prompts sessions = Except.ok
          ⟨[resolvePassword env (prompts 0), resolvePassword env (prompts 1)],
            AuthOutcome.exitOther, [], [], 0⟩ := by
        simp [auth_loop, authLoopGo, h0, h1, ht0, ht1]
      refine ⟨_, hauth, ?_, ?_, ?_, ?_, ?_, ?_⟩
      · simp
      · rfl
      · rfl
      · intro hx
        exact ReturnValue.noConfusion hx
      · intro hA hB hC
        exact ReturnValue.noConfusion hB
      · intro hall
        have := hall 1 (by omega)
        rw [hr1] at this
        exact ReturnValue.noConfusion this
    | LoginError =>
      rw [hr1] at h1
      cases hr2 : results 2 with
      | Success =>
        rw [hr2] at h2
        have hauth : auth_loop env prompts sessions = Except.ok
            ⟨[resolvePassword env (prompts 0), resolvePassword env (prompts 1),
              resolvePassword env (prompts 2)],
              AuthOutcome.success, [], [], 0⟩ := by
          simp [auth_loop, authLoopGo, h0, h1, h2, ht0, ht1, ht2]
        refine ⟨_, hauth, ?_, ?_, ?_, ?_, ?_, ?_⟩
        · simp
        · rfl
        · rfl
        · intro hx
          exact ReturnValue.noConfusion hx
        · intro hA hB hC
          exact ⟨rfl, rfl⟩
        · intro hall
          have := hall 2 (by omega)
          rw [hr2] at this
          exact ReturnValue.noConfusion this
      | OtherError =>
        rw [hr2] at h2
        have hauth : auth_loop env prompts sessions = Except.ok
            ⟨[resolvePassword env (prompts 0), resolvePassword env (prompts 1),
              resolvePassword env (prompts 2)],
              AuthOutcome.exitOther, [], [], 0⟩ := by
          simp [auth_loop, authLoopGo, h0, h1, h2, ht0, ht1, ht2]
        refine ⟨_, hauth, ?_, ?_, ?_, ?_, ?_, ?_⟩
        · simp
        · rfl
        · rfl
        · intro hx
          exact ReturnValue.noConfusion hx
        · intro hA hB hC
          exact ReturnValue.noConfusion hC
        · intro hall
          have := hall 2 (by omega)
          rw [hr2] at this
          exact ReturnValue.noConfusion this
      | LoginError =>
        rw [hr2] at h2
        have hauth : auth_loop env prompts sessions = Except.ok
            ⟨[resolvePassword env (prompts 0), resolvePassword env (prompts 1),
              resolvePassword env (prompts 2)],
              AuthOutcome.exitFailed,
              ["You failed your password too much times"],
              [(LogLevel.warning,
                "The username/password combination was failed too much time")],
              0⟩ := by
          simp [auth_loop, authLoopGo, h0, h1, h2, ht0, ht1, ht2]
        refine ⟨_, hauth, ?_, ?_, ?_, ?_, ?_, ?_⟩
        · simp
        · rfl
        · rfl
        · intro hx
          exact ReturnValue.noConfusion hx
        · intro hA hB hC
          exact ReturnValue.noConfusion hC
        · intro hall
          refine ⟨rfl, rfl, rfl, ?_⟩
          simp [notify_fun, hauth]

/-- Claim C3, witness: two rejected logins followed by a success yield a
successful authentication after exactly three attempts. -/
theorem auth_loop_spec_witness :
    ∃ t, auth_loop none promptsW sessionsW = Except.ok t ∧
      t.outcome = AuthOutcome.success ∧ t.passwordsUsed.length = 3 := by
  obtain ⟨t, hauth, hlen, hpw, htr, hOther, hLLS, hEx⟩ :=
    auth_loop_spec confW none promptsW sessionsW resultsW emptyFS
      ⟨none, none, none⟩ (fun _ => "T") okSession procTwo
      (by
        intro i hi
        interval_cases i <;> rfl)
  exact ⟨t, hauth, (hLLS rfl rfl rfl).1, (hLLS rfl rfl rfl).2⟩

/-- Claim C6, witness for the amended theorem at concrete sessions. -/
theorem send_mail_amended_witness :
    (send_mail loginRejectSession true).result =
        Except.ok ReturnValue.LoginError ∧
    (send_mail loginBrokenSession true).result =
        Except.ok ReturnValue.OtherError ∧
    (send_mail okSession false).result = Except.ok ReturnValue.Success :=
  ⟨(send_mail_amended loginRejectSession true rfl rfl rfl rfl).1 rfl,
   (send_mail_amended loginBrokenSession true rfl rfl rfl rfl).2.1
      (PyExn.otherExc "SMTPServerDisconnected") rfl (by intro h; cases h),
   (send_mail_amended okSession false rfl rfl rfl rfl).2.2.2.1 rfl rfl rfl⟩

/-- Claim C1, counterexample.  The claim states that the
process-not-found path prints a message and exits with code 0.  On a
dead pid the dispatcher re-raises ProcessLookupError and leaves it
uncaught, so the interpreter prints the traceback and exits with status
1, not 0. -/
theorem notify_dead_pid_exit_counterexample :
    (notify_target (fun _ => false) 4242).1 =
      Except.error (PyExn.processLookupError
        "The Process with PID : 4242 does not exist") ∧
    interpreterExitCode (notify_target (fun _ => false) 4242).1 = 1 ∧
    interpreterExitCode (notify_target (fun _ => false) 4242).1 ≠ 0 := by
  have h2 : interpreterExitCode (notify_target (fun _ => false) 4242).1 = 1 := rfl
  exact ⟨rfl, h2, by rw [h2]; exact one_ne_zero⟩

/-- Claim C1, amended.  For every target pid that names no live
process, the notify subcommand terminates immediately with a
ProcessLookupError naming the pid, before any authentication, watching
or mail send; the error message is printed as an uncaught traceback and
the interpreter exits with status 1, not 0. -/
theorem notify_target_dead_pid_amended (alive : Int → Bool) (pid : Int)
    (h : alive pid = false) :
    (notify_target alive pid).1 =
      Except.error (PyExn.processLookupError
        ("The Process with PID : " ++ toString pid ++ " does not exist")) ∧
    (notify_target alive pid).2 = ⟨0, 0, false, false⟩ ∧
    interpreterExitCode (notify_target alive pid).1 = 1 := by
  refine ⟨?_, ?_, ?_⟩ <;> simp [notify_target, os_kill_check, h, interpreterExitCode]

/-- Claim C1, witness for the amended theorem at a concrete dead pid. -/
theorem notify_target_dead_pid_amended_witness :
    ((fun _ => false) (7 : Int) = false) ∧
    (notify_target (fun _ => false) 7).1 =
      Except.error (PyExn.processLookupError
        ("The Process with PID : " ++ toString (7 : Int) ++ " does not exist")) :=
  ⟨rfl, (notify_target_dead_pid_amended (fun _ => false) 7 rfl).1⟩

/-- Claim C2.  For every pid alive at validation time, the dispatcher
raises TypeError before any authentication, watching or mail send,
because the name notify is bound to the imported module object
src.notify rather than to its notify function. -/
theorem notify_dispatch_type_error (alive : Int → Bool) (pid : Int)
    (h : alive pid = true) :
    (notify_target alive pid).1 =
      Except.error (PyExn.typeError "module object is not callable") ∧
    (notify_target alive pid).2 = ⟨0, 0, false, false⟩ ∧
    notifyBinding = PyCallable.moduleObj "src.notify" := by
  refine ⟨?_, ?_, rfl⟩ <;>
    simp [notify_target, os_kill_check, h, callValue, notifyBinding]

/-- Claim C2, witness at a concrete alive pid. -/
theorem notify_dispatch_type_error_witness :
    ((fun _ => true) (1 : Int) = true) ∧
    (notify_target (fun _ => true) 1).1 =
      Except.error (PyExn.typeError "module object is not callable") :=
  ⟨rfl, (notify_dispatch_type_error (fun _ => true) 1 rfl).1⟩

/-- Claim C9, evaluation at the failing input.  Running the config
subcommand with a recognized flag supplied raises AttributeError at the
args.logger access before the store is written, so nothing is
persisted; with no flag supplied the loop body never runs and the
unchanged store is persisted. -/
theorem config_target_attribute_error :
    config_target sampleConf sampleEditNs =
      Except.error (PyExn.attributeError "logger") ∧
    sampleEditNs.attrs.lookup "logger" = none ∧
    config_target sampleConf sampleNoEditNs = Except.ok sampleConf :=
  ⟨rfl, rfl, rfl⟩

end ENotify
